import Mathlib

/-!
Verification of the domino experiment-orchestration scripts.

Shallow embedding of the three scripts in this repository:
  * `src/scratch/sabri/archive/21-07/train.py` (tasks `train_model`,
    `train_linear_slices`, `score_model`, `score_linear_slices`),
  * `src/domino/pipelines/imagenet.py` (module-level pipeline script),
  * `src/scratch/sabri/10-03_imagenet_synthetic_method.py` (module-level
    pipeline script with CLI flags).

External collaborators (terra, meerkat, ray tune, torch, nltk, the domino
library itself) are modelled abstractly: a collaborator call becomes either
an opaque function parameter or a constructor in a call-trace alphabet, and
the values the scripts build and hand to them (configuration dictionaries,
metadata mappings, filtered data panels, grid-search spaces) are embedded
concretely, following the Python source line by line.
-/

/-- A Python scalar value as it appears in the metadata dictionaries and
data-panel cells of these scripts: strings, rationals (for floats, which the
scripts only combine exactly), and integers. -/
inductive PyVal where
  | s : String → PyVal
  | q : ℚ → PyVal
  | i : ℤ → PyVal
  | n : ℕ → PyVal
deriving DecidableEq, Repr

/-- A metadata mapping, as built by the dict literals in
`train_model` and `score_model` (train.py lines 33-39 and 140-146):
an association list from key to value, in literal order. -/
abbrev Metadata := List (String × PyVal)

/-- Model of `os.path.basename`: the final path component, i.e. everything
after the last slash (empty when the path ends in a slash). -/
def basename (p : String) : String :=
  String.mk (p.toList.foldl (fun acc c => if c = '/' then [] else acc ++ [c]) [])

/-- The numeric value of a decimal digit character, `none` otherwise. -/
def digitVal? (c : Char) : Option ℕ :=
  if '0' ≤ c ∧ c ≤ '9' then some (c.toNat - 48) else none

/-- Decimal value of a nonempty all-digit character list, `none` otherwise. -/
def digitsToNat? (l : List Char) : Option ℕ :=
  match l with
  | [] => none
  | _ =>
    l.foldl
      (fun acc c => acc.bind (fun a => (digitVal? c).map (fun d => a * 10 + d)))
      (some 0)

/-- Model of Python `int(str)` on the digit strings these scripts feed it
(terra run directories have numeric basenames): `some` of the parsed integer
for an optional sign followed by digits, `none` otherwise (Python raises
`ValueError` there, which no script catches). -/
def pyInt? (str : String) : Option ℤ :=
  match str.toList with
  | '-' :: ds => (digitsToNat? ds).map (fun n => -(n : ℤ))
  | '+' :: ds => (digitsToNat? ds).map (fun n => (n : ℤ))
  | ds => (digitsToNat? ds).map (fun n => (n : ℤ))

/-- The metadata dict literal shared by `train_model` (train.py lines 33-39)
and `score_model` (train.py lines 140-146):
keys `target`, `correlate`, `corr`, `num_examples`, `run_id` in that order,
with `run_id = int(os.path.basename(run_dir))` already resolved to `run_id`. -/
def mkMetadata (target correlate : String) (corr : ℚ) (num_examples : ℕ)
    (run_id : ℤ) : Metadata :=
  [("target", PyVal.s target),
   ("correlate", PyVal.s correlate),
   ("corr", PyVal.q corr),
   ("num_examples", PyVal.n num_examples),
   ("run_id", PyVal.i run_id)]

/-- Outcome of the external collaborator call
`induce_correlation(dp, corr, attr_a, attr_b, n, match_mu)` (train.py lines
41-48): either a list of selected row indices, or the
`CorrelationImpossibleError` with its message. -/
inductive InduceResult where
  | ok (indices : List ℕ)
  | impossible (msg : String)
deriving DecidableEq, Repr

/-- Observable outcome of one `train_model` task invocation:
the value it returns (`None` on the skipped branch), whether the collaborator
`train` was called, and whether the error was logged (the `print(e)` on
train.py line 50). -/
structure TrainModelResult where
  returned : Option Metadata
  trainCalled : Bool
  loggedError : Bool
deriving DecidableEq, Repr

/-- Embedding of `train_model` (train.py lines 19-63).  The metadata dict is
built first (its `int(os.path.basename(run_dir))` can raise, uncaught, hence
the `Except`); then `induce_correlation` runs inside the `try`: on
`CorrelationImpossibleError` the task prints the error and returns `None`
without calling `train`; otherwise `train` is called and the metadata dict is
returned. -/
def train_model (induce : InduceResult) (target correlate : String)
    (corr : ℚ) (num_examples : ℕ) (run_dir : String) :
    Except String TrainModelResult :=
  match pyInt? (basename run_dir) with
  | none => Except.error "ValueError: invalid literal for int"
  | some run_id =>
    let metadata := mkMetadata target correlate corr num_examples run_id
    match induce with
    | InduceResult.impossible _ =>
        Except.ok ⟨none, false, true⟩
    | InduceResult.ok _ =>
        Except.ok ⟨some metadata, true, false⟩

/-- Outcome of the external collaborator call `nltk.data.find("corpora/wordnet")`
(imagenet.py line 38, 10-03_imagenet_synthetic_method.py line 52), given
whether the wordnet corpus is present: `ok` or a `LookupError`. -/
def nltk_find (corpus_present : Bool) : Except String Unit :=
  if corpus_present then Except.ok () else
    Except.error "LookupError: corpora/wordnet not found"

/-- Embedding of the corpus block shared by both pipeline scripts
(imagenet.py lines 37-40, 10-03_imagenet_synthetic_method.py lines 51-54):
`try: nltk.data.find(...) except LookupError: nltk.download("wordnet")`.
Returns (whether `nltk.download` was called, whether control continues past
the block, i.e. no exception escapes it). -/
def ensure_wordnet (corpus_present : Bool) : Bool × Bool :=
  match nltk_find corpus_present with
  | Except.ok _ => (false, true)
  | Except.error _ => (true, true)

/-- The alphabet of collaborator calls the two pipeline scripts make, in the
five stage categories of the spec: dataset provider, embedding provider,
setting collector, train/score harness, discovery runner and scorer. -/
inductive Call where
  | get_imagenet_dp
  | split_dp
  | get_wiki_words
  | embed_words
  | embed_images (emb_type : String) (model : String)
  | collect_settings (slice_category : String)
  | concat_settings
  | random_filter_settings
  | synthetic_score_settings
  | train_settings
  | score_settings
  | run_sdms
  | score_sdms
deriving DecidableEq, Repr

/-- The spec's stage number of each collaborator call: 1 dataset provider,
2 embedding provider, 3 setting collector, 4 train/score harness,
5 discovery runner and scorer. -/
def stageOf : Call → ℕ
  | Call.get_imagenet_dp => 1
  | Call.split_dp => 1
  | Call.get_wiki_words => 2
  | Call.embed_words => 2
  | Call.embed_images _ _ => 2
  | Call.collect_settings _ => 3
  | Call.concat_settings => 3
  | Call.random_filter_settings => 3
  | Call.synthetic_score_settings => 4
  | Call.train_settings => 4
  | Call.score_settings => 4
  | Call.run_sdms => 5
  | Call.score_sdms => 5

/-- Embedding of the module body of
`src/scratch/sabri/10-03_imagenet_synthetic_method.py` (lines 40-236) as the
sequence of collaborator calls it makes, given the parsed CLI flags
`worker_idx`, `num_workers`, `synthetic`, `sanity`.  The worker flags are
only printed (line 43).  After the dataset, embedding and setting-collector
calls, `args.sanity` adds a `random_filter_settings` call (lines 154-156);
then `args.synthetic` selects `synthetic_score_settings` and the downstream
sdm calls (lines 159-236), while `not args.synthetic` raises `ValueError`
(line 172) and no further call is made.  Returns (calls made, whether the
script ran to completion without raising). -/
def synthetic_method_script (worker_idx num_workers : ℕ)
    (synthetic sanity : Bool) : List Call × Bool :=
  let pre : List Call :=
    [Call.get_imagenet_dp, Call.split_dp, Call.get_wiki_words,
     Call.embed_words,
     Call.embed_images "bit" "",
     Call.embed_images "imagenet" "resnet50_random",
     Call.embed_images "clip" "",
     Call.collect_settings "rare", Call.collect_settings "noisy_label",
     Call.concat_settings]
  let pre := pre ++ (if sanity then [Call.random_filter_settings] else [])
  if synthetic then
    (pre ++ [Call.synthetic_score_settings, Call.run_sdms, Call.score_sdms],
     true)
  else
    (pre, false)

/-- Embedding of the module body of `src/domino/pipelines/imagenet.py`
(lines 32-224) as the sequence of collaborator calls it makes.  The
`if False:` branch (line 124) is dead, so the script always calls
`train_settings` then `score_settings` (lines 137-160). -/
def imagenet_pipeline_calls : List Call :=
  [Call.get_imagenet_dp, Call.split_dp, Call.get_wiki_words,
   Call.embed_words,
   Call.embed_images "bit" "",
   Call.embed_images "imagenet" "",
   Call.embed_images "imagenet" "resnet50_random",
   Call.embed_images "clip" "",
   Call.collect_settings "rare", Call.collect_settings "noisy_label",
   Call.concat_settings,
   Call.train_settings, Call.score_settings,
   Call.run_sdms, Call.score_sdms]

/-- Whether a list of stage numbers is non-decreasing: each adjacent pair is
ordered, so a script never calls an earlier stage after a later stage has
been entered, and never re-enters a stage after moving past it. -/
def stagesMonotone : List ℕ → Bool
  | [] => true
  | [_] => true
  | a :: b :: rest => a ≤ b && stagesMonotone (b :: rest)

/-- The two reductions `torch` can apply over the last two tensor
dimensions in this script's vocabulary: `torch.mean(., dim=[-1, -2])`
(what both branches of `_get_reduction_fn` build) and an actual maximum
over the last two dimensions (what the `"max"` branch would be expected
to build but does not). -/
inductive TorchReduction where
  | meanLastTwo
  | amaxLastTwo
deriving DecidableEq, Repr

/-- Semantics of a `TorchReduction` on the last two dimensions, modelled on
a matrix of exact rationals: the mean of all entries, or their maximum
(on torch's side, `amax`; junk value 0 on an empty matrix). -/
def reduceLastTwo (red : TorchReduction) (m : List (List ℚ)) : ℚ :=
  match red with
  | TorchReduction.meanLastTwo => m.join.sum / (m.join.length : ℚ)
  | TorchReduction.amaxLastTwo => m.join.foldl max 0

/-- A batched activation tensor (leading batch dimension, then the two
reduced dimensions) mapped through a `TorchReduction`, as
`reduction_fn(activations)` does inside the collaborator `score`. -/
def applyReduction (red : TorchReduction) (t : List (List (List ℚ))) :
    List ℚ :=
  t.map (reduceLastTwo red)

/-- The value `_get_reduction_fn` builds: the reduction callable together
with the `__name__` attribute assigned on train.py line 134. -/
structure NamedReduction where
  fn : TorchReduction
  name : String
deriving DecidableEq, Repr

/-- Embedding of `_get_reduction_fn` (train.py lines 127-135): the name
`"max"` builds `partial(torch.mean, dim=[-1, -2])`, the name `"mean"` builds
`partial(torch.mean, dim=[-1, -2])` as well, and any other name raises
`ValueError: reduction_fn {name} not supported.`; the chosen name is then
assigned to the callable's `__name__`. -/
def _get_reduction_fn (reduction_name : String) : Except String NamedReduction :=
  if reduction_name = "max" then
    Except.ok ⟨TorchReduction.meanLastTwo, reduction_name⟩
  else if reduction_name = "mean" then
    Except.ok ⟨TorchReduction.meanLastTwo, reduction_name⟩
  else
    Except.error ("ValueError: reduction_fn " ++ reduction_name ++
      " not supported.")

/-- Embedding of `list(map(_get_reduction_fn, reduction_fns))` (train.py
line 137): Python's eager `map` applies `_get_reduction_fn` left to right
and the first `ValueError` raised propagates out of `score_model`. -/
def mapReductions : List String → Except String (List NamedReduction)
  | [] => Except.ok []
  | n :: rest =>
    match _get_reduction_fn n with
    | Except.error e => Except.error e
    | Except.ok r =>
      match mapReductions rest with
      | Except.error e => Except.error e
      | Except.ok rs => Except.ok (r :: rs)

/-- Embedding of the `if reduction_fns is not None:` block of `score_model`
(train.py lines 125-137): `None` passes through, otherwise every name is
resolved through `_get_reduction_fn`. -/
def processReductions :
    Option (List String) → Except String (Option (List NamedReduction))
  | none => Except.ok none
  | some names => (mapReductions names).map some

/-- A data-panel row: an association list from column name to cell value. -/
abbrev Row := List (String × PyVal)

/-- A meerkat `DataPanel` as these scripts use it: a list of column names
and a list of rows. -/
structure DataPanel where
  columns : List String
  rows : List Row
deriving DecidableEq, Repr

/-- The `split` argument of `score_model`: a single split name, or a
collection of split names (train.py lines 148-152 branch on
`isinstance(split, str)`). -/
inductive SplitArg where
  | one (s : String)
  | many (ss : List String)
deriving DecidableEq, Repr

/-- Embedding of the split mask of `score_model` (train.py lines 148-152):
`dp["split"].data == split` for a single name,
`np.isin(dp["split"].data, split)` for a collection, evaluated per row. -/
def splitMatches (split : SplitArg) (r : Row) : Bool :=
  match split with
  | SplitArg.one s => r.lookup "split" == some (PyVal.s s)
  | SplitArg.many ss =>
    match r.lookup "split" with
    | some (PyVal.s v) => ss.contains v
    | _ => false

/-- Embedding of `score_dp[cols]` (train.py line 169): the panel restricted
to the listed columns, in that order. -/
def selectCols (cols : List String) (dp : DataPanel) : DataPanel :=
  ⟨cols,
   dp.rows.map (fun r =>
     cols.filterMap (fun c => (r.lookup c).map (fun v => (c, v))))⟩

/-- Embedding of `score_model` (train.py lines 105-169).  The external
collaborator `score` (domino.vision) is the abstract `scoreFn`, which
receives the split-filtered panel and returns the scored panel (the model,
layers and the resolved reduction functions it also receives are absorbed
into `scoreFn`).  In order: the reduction names are resolved (a bad name
raises `ValueError`), the metadata dict is built (its
`int(os.path.basename(run_dir))` can raise), the rows are masked by split,
`score` is called on the masked panel, and the scored panel is restricted
to the id/target/correlate/split columns plus the columns scoring added. -/
def score_model (scoreFn : DataPanel → DataPanel) (dp : DataPanel)
    (target correlate : String) (corr : ℚ) (num_examples : ℕ)
    (split : SplitArg) (input_column id_column : String)
    (reduction_fns : Option (List String)) (run_dir : String) :
    Except String (DataPanel × Metadata) :=
  match processReductions reduction_fns with
  | Except.error e => Except.error e
  | Except.ok _ =>
    match pyInt? (basename run_dir) with
    | none => Except.error "ValueError: invalid literal for int"
    | some run_id =>
      let metadata := mkMetadata target correlate corr num_examples run_id
      let score_dp := scoreFn ⟨dp.columns, dp.rows.filter (splitMatches split)⟩
      let cols := [id_column, target, correlate, "split"] ++
        score_dp.columns.filter (fun c => !(dp.columns.contains c))
      Except.ok (selectCols cols score_dp, metadata)

/-- Model of `np.linspace(start, stop, num)` with the default
`endpoint=True`, in exact rational arithmetic: `num` evenly spaced samples
whose first is `start` and (for `num ≥ 2`) whose last is `stop`. -/
def linspace (start stop : ℚ) (num : ℕ) : List ℚ :=
  if num = 0 then []
  else if num = 1 then [start]
  else
    (List.range num).map
      (fun i : ℕ => start + (i : ℚ) * ((stop - start) / ((num - 1 : ℕ) : ℚ)))

/-- Embedding of the `tune.run` configuration space of `train_linear_slices`
(train.py lines 93-101): the config dict holds two `tune.grid_search` axes,
`corr` over `np.linspace(0, max_corr, num_corrs)` and `target_correlate`
over the given pairs, and ray tune enumerates their Cartesian product once
per sample. -/
def train_linear_slices_grid (max_corr : ℚ) (num_corrs : ℕ)
    (target_correlate_pairs : List (String × String)) :
    List (ℚ × (String × String)) :=
  (linspace 0 max_corr num_corrs).product target_correlate_pairs

/-- A small concrete data panel used to exercise `score_model`: two rows in
different splits, with id column `file`, target `t`, correlate `c`. -/
def demo_dp : DataPanel :=
  ⟨["file", "t", "c", "split"],
   [[("file", PyVal.s "a"), ("split", PyVal.s "test")],
    [("file", PyVal.s "b"), ("split", PyVal.s "valid")]]⟩

/-- A concrete stand-in for the collaborator `score`: it appends one new
column `score` to the panel it is given. -/
def demo_score (p : DataPanel) : DataPanel :=
  ⟨p.columns ++ ["score"],
   p.rows.map (fun r => r ++ [("score", PyVal.q 1)])⟩

/-- C1: when `induce_correlation` raises `CorrelationImpossibleError`,
`train_model` logs the error and returns (value `None`) without calling
`train` and without propagating the exception; when it does not raise,
`train` is called and the metadata mapping is returned. -/
theorem train_model_skips_impossible_correlation
    (target correlate : String) (corr : ℚ) (num_examples : ℕ)
    (run_dir : String) (run_id : ℤ) (msg : String) (indices : List ℕ)
    (hparse : pyInt? (basename run_dir) = some run_id) :
    train_model (InduceResult.impossible msg) target correlate corr
        num_examples run_dir =
      Except.ok ⟨none, false, true⟩ ∧
    train_model (InduceResult.ok indices) target correlate corr
        num_examples run_dir =
      Except.ok ⟨some (mkMetadata target correlate corr num_examples run_id),
        true, false⟩ := by
  constructor <;> simp [train_model, hparse]

/-- Witness for C1 at a concrete run directory. -/
theorem train_model_skips_impossible_correlation_witness :
    train_model (InduceResult.impossible "err") "dog" "cat" (1/2) 30000
        "/scratch/runs/42" =
      Except.ok ⟨none, false, true⟩ ∧
    train_model (InduceResult.ok [0, 1]) "dog" "cat" (1/2) 30000
        "/scratch/runs/42" =
      Except.ok ⟨some (mkMetadata "dog" "cat" (1/2) 30000 42), true, false⟩ :=
  train_model_skips_impossible_correlation "dog" "cat" (1/2) 30000
    "/scratch/runs/42" 42 "err" [0, 1] (by decide)

/-- Counterexample to C3: when the wordnet corpus lookup fails
(`nltk.data.find` raises `LookupError`), the script does not raise: the
handler calls `nltk.download("wordnet")` and control continues past the
block, contradicting the claim that a missing-corpus failure terminates the
script. -/
theorem missing_corpus_is_recovered_not_fatal :
    nltk_find false = Except.error "LookupError: corpora/wordnet not found" ∧
    ensure_wordnet false = (true, true) := by
  constructor <;> rfl

/-- C3 amended: a missing-corpus lookup failure is recovered locally, not
fatal: in every invocation the script continues past the corpus block, and
`nltk.download` is called exactly when the corpus was missing. -/
theorem corpus_block_always_continues (corpus_present : Bool) :
    (ensure_wordnet corpus_present).2 = true ∧
    (ensure_wordnet corpus_present).1 = !corpus_present := by
  cases corpus_present <;> simp [ensure_wordnet, nltk_find]

/-- Counterexample to C2: with the synthetic flag false the script does not
branch to the trained-scoring calls: it raises `ValueError`, so the
invocation does not complete and never calls `train_settings` or
`score_settings`. -/
theorem synthetic_flag_false_raises :
    (synthetic_method_script 0 1 false false).2 = false ∧
    (synthetic_method_script 0 1 false false).1.contains
      Call.train_settings = false ∧
    (synthetic_method_script 0 1 false false).1.contains
      Call.score_settings = false := by
  decide

/-- C2 amended: when the synthetic flag is true the script branches to the
synthetic-scoring collaborator call and completes its pipeline; when the
flag is false the script raises `ValueError` and terminates without calling
the trained-scoring collaborators (`train_settings`, `score_settings`) or
the synthetic one. -/
theorem synthetic_flag_selects_branch (worker_idx num_workers : ℕ)
    (sanity : Bool) :
    (synthetic_method_script worker_idx num_workers true sanity).1.contains
      Call.synthetic_score_settings = true ∧
    (synthetic_method_script worker_idx num_workers true sanity).1.contains
      Call.train_settings = false ∧
    (synthetic_method_script worker_idx num_workers true sanity).2 = true ∧
    (synthetic_method_script worker_idx num_workers false sanity).2 = false ∧
    (synthetic_method_script worker_idx num_workers false sanity).1.contains
      Call.synthetic_score_settings = false ∧
    (synthetic_method_script worker_idx num_workers false sanity).1.contains
      Call.train_settings = false := by
  have ht : synthetic_method_script worker_idx num_workers true sanity =
      synthetic_method_script 0 0 true sanity := rfl
  have hf : synthetic_method_script worker_idx num_workers false sanity =
      synthetic_method_script 0 0 false sanity := rfl
  rw [ht, hf]
  cases sanity <;> decide

/-- Counterexample to C5 (its negation): there are no two values of the
worker flags for which the sequence of collaborator calls differs — the
script only prints `worker_idx` and `num_workers`, so as a function of the
worker flags its behaviour is the constant function, equal to its value at
(0, 0) for every flag combination. -/
theorem worker_flags_never_change_calls :
    (fun (wi nw : ℕ) (synthetic sanity : Bool) =>
      synthetic_method_script wi nw synthetic sanity) =
      (fun (_ _ : ℕ) (synthetic sanity : Bool) =>
        synthetic_method_script 0 0 synthetic sanity) := rfl

/-- C5 amended: the worker-index and worker-count flags are parsed and
printed but not otherwise consumed — the collaborator call sequence is the
same as with both flags zero — while the synthetic flag does change the
script's behaviour (completion differs between its two values). -/
theorem worker_flags_only_printed (wi nw : ℕ) (synthetic sanity : Bool) :
    synthetic_method_script wi nw synthetic sanity =
      synthetic_method_script 0 0 synthetic sanity ∧
    (synthetic_method_script wi nw true sanity).2 = true ∧
    (synthetic_method_script wi nw false sanity).2 = false := by
  have ht : synthetic_method_script wi nw true sanity =
      synthetic_method_script 0 0 true sanity := rfl
  have hf : synthetic_method_script wi nw false sanity =
      synthetic_method_script 0 0 false sanity := rfl
  refine ⟨rfl, ?_, ?_⟩
  · rw [ht]; cases sanity <;> decide
  · rw [hf]; cases sanity <;> decide

/-- Counterexample to C6: the invocation of the synthetic-method script with
the synthetic flag false never enters the train/score-harness stage (4) or
the discovery stage (5), so not every script invocation calls all five
collaborator stages. -/
theorem not_every_invocation_reaches_all_stages :
    ((synthetic_method_script 0 1 false false).1.map stageOf).contains 4
      = false ∧
    ((synthetic_method_script 0 1 false false).1.map stageOf).contains 5
      = false := by
  decide

/-- C6 amended: in both scripts the collaborator calls proceed in
non-decreasing stage order (never a call to an earlier stage after a later
stage has been entered, never a stage re-entered after moving past it), and
every invocation that completes — every imagenet.py invocation, and every
synthetic-method invocation with the synthetic flag true — calls all five
stages in that order. -/
theorem pipeline_stages_monotone (wi nw : ℕ) (sanity : Bool) :
    stagesMonotone
      ((synthetic_method_script wi nw true sanity).1.map stageOf) = true ∧
    stagesMonotone
      ((synthetic_method_script wi nw false sanity).1.map stageOf) = true ∧
    (∀ k ∈ [1, 2, 3, 4, 5],
      k ∈ (synthetic_method_script wi nw true sanity).1.map stageOf) ∧
    stagesMonotone (imagenet_pipeline_calls.map stageOf) = true ∧
    (∀ k ∈ [1, 2, 3, 4, 5], k ∈ imagenet_pipeline_calls.map stageOf) := by
  have ht : synthetic_method_script wi nw true sanity =
      synthetic_method_script 0 0 true sanity := rfl
  have hf : synthetic_method_script wi nw false sanity =
      synthetic_method_script 0 0 false sanity := rfl
  rw [ht, hf]
  cases sanity <;> exact ⟨by decide, by decide, by decide, by decide, by decide⟩

/-- Helper: a reduction name other than `"max"` and `"mean"` anywhere in
the list makes the whole `map` raise. -/
theorem mapReductions_error_of_mem (l : List String) (bad : String)
    (hmem : bad ∈ l) (h1 : bad ≠ "max") (h2 : bad ≠ "mean") :
    ∃ msg, mapReductions l = Except.error msg := by
  induction l with
  | nil => cases hmem
  | cons a rest ih =>
    rcases List.mem_cons.mp hmem with h | h
    · subst h
      refine ⟨"ValueError: reduction_fn " ++ bad ++ " not supported.", ?_⟩
      simp [mapReductions, _get_reduction_fn, h1, h2]
    · obtain ⟨msg, hmsg⟩ := ih h
      by_cases ha : a = "max"
      · subst ha
        exact ⟨msg, by simp [mapReductions, _get_reduction_fn, hmsg]⟩
      · by_cases hb : a = "mean"
        · subst hb
          exact ⟨msg, by simp [mapReductions, _get_reduction_fn, hmsg]⟩
        · refine ⟨"ValueError: reduction_fn " ++ a ++ " not supported.", ?_⟩
          simp [mapReductions, _get_reduction_fn, ha, hb]

/-- Helper: a list of valid reduction names resolves without raising. -/
theorem mapReductions_ok_of_valid (l : List String)
    (h : ∀ n ∈ l, n = "max" ∨ n = "mean") :
    ∃ rs, mapReductions l = Except.ok rs := by
  induction l with
  | nil => exact ⟨[], rfl⟩
  | cons a rest ih =>
    obtain ⟨rs, hrs⟩ := ih (fun n hn => h n (List.mem_cons_of_mem _ hn))
    rcases h a (List.mem_cons_self a rest) with ha | ha <;> subst ha
    · refine ⟨⟨TorchReduction.meanLastTwo, "max"⟩ :: rs, ?_⟩
      simp [mapReductions, _get_reduction_fn, hrs]
    · refine ⟨⟨TorchReduction.meanLastTwo, "mean"⟩ :: rs, ?_⟩
      simp [mapReductions, _get_reduction_fn, hrs]

/-- C4: a reduction name that is neither `"max"` nor `"mean"` anywhere in
the list passed to `score_model` makes `score_model` raise the
`ValueError` (no local recovery), while a list of only `"max"`/`"mean"`
names resolves without any such error. -/
theorem score_model_rejects_bad_reduction_names
    (scoreFn : DataPanel → DataPanel) (dp : DataPanel)
    (target correlate : String) (corr : ℚ) (num_examples : ℕ)
    (split : SplitArg) (input_column id_column run_dir : String)
    (bad : String) (names goodNames : List String)
    (h1 : bad ≠ "max") (h2 : bad ≠ "mean") (hmem : bad ∈ names)
    (hgood : ∀ n ∈ goodNames, n = "max" ∨ n = "mean") :
    (∃ msg, score_model scoreFn dp target correlate corr num_examples split
        input_column id_column (some names) run_dir = Except.error msg) ∧
    (∃ rs, mapReductions goodNames = Except.ok rs) := by
  obtain ⟨msg, hmsg⟩ := mapReductions_error_of_mem names bad hmem h1 h2
  refine ⟨⟨msg, ?_⟩, mapReductions_ok_of_valid goodNames hgood⟩
  simp [score_model, processReductions, hmsg, Except.map]

/-- Witness for C4: the name `"sum"` raises, `["max", "mean"]` does not. -/
theorem score_model_rejects_bad_reduction_names_witness :
    (∃ msg, score_model (fun p => p) ⟨[], []⟩ "t" "c" 0 100
        (SplitArg.one "test") "input" "file" (some ["sum"]) "/runs/7" =
        Except.error msg) ∧
    (∃ rs, mapReductions ["max", "mean"] = Except.ok rs) :=
  score_model_rejects_bad_reduction_names (fun p => p) ⟨[], []⟩ "t" "c" 0 100
    (SplitArg.one "test") "input" "file" "/runs/7" "sum" ["sum"]
    ["max", "mean"] (by decide) (by decide) (by decide) (by decide)

/-- C8: the reduction built for the name `"max"` is the same function as
the one built for `"mean"` — both are `torch.mean` over the last two
dimensions — so on every activation tensor they produce equal results,
even though a genuine maximum would differ (e.g. on `[[[0, 2]]]`). -/
theorem reduction_max_is_mean (t : List (List (List ℚ))) :
    (_get_reduction_fn "max").map (fun r => applyReduction r.fn t) =
      (_get_reduction_fn "mean").map (fun r => applyReduction r.fn t) ∧
    (_get_reduction_fn "max").map NamedReduction.fn =
      Except.ok TorchReduction.meanLastTwo ∧
    (_get_reduction_fn "mean").map NamedReduction.fn =
      Except.ok TorchReduction.meanLastTwo ∧
    applyReduction TorchReduction.meanLastTwo [[[0, 2]]] ≠
      applyReduction TorchReduction.amaxLastTwo [[[0, 2]]] :=
  ⟨rfl, rfl, rfl, by norm_num [applyReduction, reduceLastTwo]⟩

/-- C7: `score_model` returns a pair of the scored panel and a metadata
mapping whose keys are exactly `target`, `correlate`, `corr`,
`num_examples`, `run_id`, with the first four equal to the arguments passed
in and `run_id` the integer value of the basename of `run_dir`. -/
theorem score_model_metadata_contract
    (scoreFn : DataPanel → DataPanel) (dp : DataPanel)
    (target correlate : String) (corr : ℚ) (num_examples : ℕ)
    (split : SplitArg) (input_column id_column run_dir : String)
    (reduction_fns : Option (List String))
    (rv : Option (List NamedReduction)) (run_id : ℤ)
    (hred : processReductions reduction_fns = Except.ok rv)
    (hparse : pyInt? (basename run_dir) = some run_id) :
    ∃ scored md,
      score_model scoreFn dp target correlate corr num_examples split
          input_column id_column reduction_fns run_dir =
        Except.ok (scored, md) ∧
      md.map Prod.fst =
        ["target", "correlate", "corr", "num_examples", "run_id"] ∧
      md.lookup "target" = some (PyVal.s target) ∧
      md.lookup "correlate" = some (PyVal.s correlate) ∧
      md.lookup "corr" = some (PyVal.q corr) ∧
      md.lookup "num_examples" = some (PyVal.n num_examples) ∧
      md.lookup "run_id" = some (PyVal.i run_id) := by
  have h : score_model scoreFn dp target correlate corr num_examples split
      input_column id_column reduction_fns run_dir =
      Except.ok
        (selectCols
          ([id_column, target, correlate, "split"] ++
            (scoreFn ⟨dp.columns,
              dp.rows.filter (splitMatches split)⟩).columns.filter
              (fun c => !(dp.columns.contains c)))
          (scoreFn ⟨dp.columns, dp.rows.filter (splitMatches split)⟩),
         mkMetadata target correlate corr num_examples run_id) := by
    unfold score_model
    rw [hred, hparse]
  exact ⟨_, _, h, rfl, rfl, rfl, rfl, rfl, rfl⟩

/-- Witness for C7 at a concrete invocation. -/
theorem score_model_metadata_contract_witness :
    ∃ scored md,
      score_model (fun p => p)
          ⟨["file", "t", "c", "split"], []⟩ "t" "c" (1/4) 200
          (SplitArg.one "test") "input" "file" (some ["mean"]) "/runs/9" =
        Except.ok (scored, md) ∧
      md.map Prod.fst =
        ["target", "correlate", "corr", "num_examples", "run_id"] ∧
      md.lookup "target" = some (PyVal.s "t") ∧
      md.lookup "correlate" = some (PyVal.s "c") ∧
      md.lookup "corr" = some (PyVal.q (1/4)) ∧
      md.lookup "num_examples" = some (PyVal.n 200) ∧
      md.lookup "run_id" = some (PyVal.i 9) :=
  score_model_metadata_contract (fun p => p)
    ⟨["file", "t", "c", "split"], []⟩ "t" "c" (1/4) 200
    (SplitArg.one "test") "input" "file" "/runs/9" (some ["mean"])
    (some [⟨TorchReduction.meanLastTwo, "mean"⟩]) 9 rfl rfl

/-- C9: `score_model` hands the collaborator `score` exactly the rows of
the input panel whose `"split"` value matches the `split` argument (equals
it for a single name, is a member for a collection), and the panel it
returns has exactly the id column, the target column, the correlate column,
`"split"`, and the columns the scored panel added over the input panel;
every other input column is dropped. -/
theorem score_model_splits_rows_and_drops_columns
    (scoreFn : DataPanel → DataPanel) (dp : DataPanel)
    (target correlate : String) (corr : ℚ) (num_examples : ℕ)
    (split : SplitArg) (input_column id_column run_dir : String)
    (reduction_fns : Option (List String))
    (rv : Option (List NamedReduction)) (run_id : ℤ)
    (hred : processReductions reduction_fns = Except.ok rv)
    (hparse : pyInt? (basename run_dir) = some run_id) :
    ∃ filtered scored md,
      filtered = DataPanel.mk dp.columns (dp.rows.filter (splitMatches split)) ∧
      (∀ r, r ∈ filtered.rows ↔ r ∈ dp.rows ∧ splitMatches split r = true) ∧
      score_model scoreFn dp target correlate corr num_examples split
          input_column id_column reduction_fns run_dir =
        Except.ok (scored, md) ∧
      scored = selectCols
          ([id_column, target, correlate, "split"] ++
            (scoreFn filtered).columns.filter
              (fun c => !(dp.columns.contains c)))
          (scoreFn filtered) ∧
      (∀ c, c ∈ scored.columns ↔
        (c = id_column ∨ c = target ∨ c = correlate ∨ c = "split" ∨
          (c ∈ (scoreFn filtered).columns ∧ c ∉ dp.columns))) := by
  refine ⟨DataPanel.mk dp.columns (dp.rows.filter (splitMatches split)), _,
    mkMetadata target correlate corr num_examples run_id, rfl, ?_, ?_, rfl, ?_⟩
  · intro r
    exact List.mem_filter
  · simp [score_model, hred, hparse, selectCols]
  · intro c
    simp [selectCols, List.mem_filter, or_assoc]

/-- C10: the `train_linear_slices` grid search enumerates the Cartesian
product of the correlation values and the target-correlate pairs —
`num_corrs * len(target_correlate_pairs)` distinct configurations per
sample — where the correlation values are exactly `num_corrs` evenly spaced
values from `0` to `max_corr` inclusive (value `i` is
`i * max_corr / (num_corrs - 1)`). -/
theorem grid_is_linspace_times_pairs
    (max_corr : ℚ) (num_corrs : ℕ) (pairs : List (String × String))
    (h2 : 2 ≤ num_corrs) (hm : max_corr ≠ 0) (hp : pairs.Nodup) :
    (train_linear_slices_grid max_corr num_corrs pairs).length =
      num_corrs * pairs.length ∧
    (train_linear_slices_grid max_corr num_corrs pairs).Nodup ∧
    (∀ p, p ∈ train_linear_slices_grid max_corr num_corrs pairs ↔
      (p.1 ∈ linspace 0 max_corr num_corrs ∧ p.2 ∈ pairs)) ∧
    (linspace 0 max_corr num_corrs).length = num_corrs ∧
    (∀ i, i < num_corrs →
      (linspace 0 max_corr num_corrs)[i]? =
        some ((i : ℚ) * (max_corr / ((num_corrs - 1 : ℕ) : ℚ)))) ∧
    (linspace 0 max_corr num_corrs).head? = some 0 ∧
    (linspace 0 max_corr num_corrs).getLast? = some max_corr := by
  have hn0 : num_corrs ≠ 0 := by omega
  have hn1 : num_corrs ≠ 1 := by omega
  have hlin_def : linspace 0 max_corr num_corrs =
      (List.range num_corrs).map
        (fun i : ℕ => 0 + (i : ℚ) *
          ((max_corr - 0) / ((num_corrs - 1 : ℕ) : ℚ))) := by
    unfold linspace
    rw [if_neg hn0, if_neg hn1]
  have hden : ((num_corrs - 1 : ℕ) : ℚ) ≠ 0 := by
    have hpos : (0 : ℕ) < num_corrs - 1 := by omega
    exact_mod_cast (Nat.cast_pos.mpr hpos).ne'
  have hcne : max_corr / ((num_corrs - 1 : ℕ) : ℚ) ≠ 0 :=
    div_ne_zero hm hden
  have hlen : (linspace 0 max_corr num_corrs).length = num_corrs := by
    rw [hlin_def]; simp
  have hidx : ∀ i, i < num_corrs →
      (linspace 0 max_corr num_corrs)[i]? =
        some ((i : ℚ) * (max_corr / ((num_corrs - 1 : ℕ) : ℚ))) := by
    intro i hi
    rw [hlin_def, List.getElem?_map, List.getElem?_range hi]
    simp
  have hnodup_lin : (linspace 0 max_corr num_corrs).Nodup := by
    rw [hlin_def]
    refine List.Nodup.map ?_ (List.nodup_range num_corrs)
    intro a b hab
    simp only [zero_add, sub_zero] at hab
    exact_mod_cast mul_left_injective₀ hcne hab
  have hhead : (linspace 0 max_corr num_corrs).head? = some 0 := by
    have h0 := hidx 0 (by omega)
    rw [List.head?_eq_getElem?, h0]
    simp
  have hlast : (linspace 0 max_corr num_corrs).getLast? = some max_corr := by
    have hl := hidx (num_corrs - 1) (by omega)
    rw [List.getLast?_eq_getElem?, hlen, hl]
    rw [mul_comm, div_mul_cancel₀ _ hden]
  refine ⟨?_, ?_, ?_, hlen, hidx, hhead, hlast⟩
  · show ((linspace 0 max_corr num_corrs) ×ˢ pairs).length = _
    rw [List.length_product, hlen]
  · exact hnodup_lin.product hp
  · intro p
    obtain ⟨a, b⟩ := p
    exact List.mem_product

/-- Witness for C10 at the default grid shape (`num_corrs = 9`,
`max_corr = 0.8`) and two target-correlate pairs. -/
theorem grid_is_linspace_times_pairs_witness :
    (train_linear_slices_grid (4/5) 9
        [("dog", "cat"), ("car", "boat")]).length =
      9 * [("dog", "cat"), ("car", "boat")].length ∧
    (train_linear_slices_grid (4/5) 9
        [("dog", "cat"), ("car", "boat")]).Nodup ∧
    (∀ p, p ∈ train_linear_slices_grid (4/5) 9
        [("dog", "cat"), ("car", "boat")] ↔
      (p.1 ∈ linspace 0 (4/5) 9 ∧ p.2 ∈ [("dog", "cat"), ("car", "boat")])) ∧
    (linspace 0 (4/5) 9).length = 9 ∧
    (∀ i : ℕ, i < 9 →
      (linspace 0 (4/5) 9)[i]? =
        some ((i : ℚ) * ((4/5) / ((9 - 1 : ℕ) : ℚ)))) ∧
    (linspace 0 (4/5) 9).head? = some 0 ∧
    (linspace 0 (4/5) 9).getLast? = some (4/5) :=
  grid_is_linspace_times_pairs (4/5) 9 [("dog", "cat"), ("car", "boat")]
    (by norm_num) (by norm_num) (by decide)

/-- Witness for C9 on a concrete panel and a scoring stand-in that adds one
column. -/
theorem score_model_splits_rows_and_drops_columns_witness :
    ∃ filtered scored md,
      filtered = DataPanel.mk demo_dp.columns
        (demo_dp.rows.filter (splitMatches (SplitArg.one "test"))) ∧
      (∀ r, r ∈ filtered.rows ↔
        r ∈ demo_dp.rows ∧ splitMatches (SplitArg.one "test") r = true) ∧
      score_model demo_score demo_dp "t" "c" (1/2) 100 (SplitArg.one "test")
          "input" "file" none "/runs/3" = Except.ok (scored, md) ∧
      scored = selectCols
          (["file", "t", "c", "split"] ++
            (demo_score filtered).columns.filter
              (fun c => !(demo_dp.columns.contains c)))
          (demo_score filtered) ∧
      (∀ c, c ∈ scored.columns ↔
        (c = "file" ∨ c = "t" ∨ c = "c" ∨ c = "split" ∨
          (c ∈ (demo_score filtered).columns ∧ c ∉ demo_dp.columns))) :=
  score_model_splits_rows_and_drops_columns demo_score demo_dp "t" "c" (1/2)
    100 (SplitArg.one "test") "input" "file" "/runs/3" none none 3
    rfl (by decide)
